import Mathlib

/-!
Verification of the networking layer of `automerge-repo-rs`.

The development shallowly embeds two source files:

* `src/network_connect.rs` — the handshake that turns a raw bidirectional
  message transport into a trusted peer channel, and `connect_stream`,
  which performs the handshake and installs the post-handshake mapped
  stream/sink as a remote-repo channel.
* `tests/integration_tests.rs` — the in-memory `Network` adapter used by
  the integration tests: a pair of VecDeque queues with a Stream and a
  Sink implementation over them.

Asynchronous streams are modelled as lists of pending items (the head is
what `stream.next().await` yields; an empty list is the end of the
stream).  A sink is modelled by accumulating the successfully sent
messages in a list; the outcome of the single `sink.send(..).await` a
handshake arm performs is an explicit `Option String` parameter (`none`
means the send succeeded, `some e` is the transport's error text).
-/

deriving instance DecidableEq for Except

/-- Modelled from the spec: `ProtocolVersion — ordered enum; V1 is the
only initially defined value.`  The type is declared in the crate's
`interfaces` module, which is not part of the excerpt. -/
inductive ProtocolVersion where
  | V1
deriving DecidableEq, Repr

/-- Modelled from the spec: `RepoId — opaque stable identifier of a repo
instance; byte-equality comparable`.  Opacity is modelled by a single
numeric field. -/
structure RepoId where
  id : Nat
deriving DecidableEq, Repr

/-- Modelled from the spec: `DocumentId — globally unique; structurally
includes the originating RepoId so that document_id.repo_id() is
recoverable without a lookup.` -/
structure DocumentId where
  repo_id : RepoId
  counter : Nat
deriving DecidableEq, Repr

/-- Modelled from the spec: `RepoMessage — tagged variant; the only
currently required case is Sync { from: RepoId, to: RepoId, document:
DocumentId, payload: bytes }`, plus the `ephemeral internal Leave` case
listed among the codec's variants; the wildcard arm of the sink closure
in `connect_stream` shows the type has more cases than `Sync`. -/
inductive RepoMessage where
  | Sync (from_repo_id : RepoId) (to_repo_id : RepoId)
      (document_id : DocumentId) (payload : List Nat)
  | Leave
deriving DecidableEq, Repr

/-- Modelled from the spec: the wire `Message` variants
`Join { sender, supported }`, `Peer { sender, selected }` and
`Repo(RepoMessage)`. -/
inductive Message where
  | Join (sender : RepoId) (supported_protocol_versions : List ProtocolVersion)
  | Peer (sender : RepoId) (selected_protocol_version : ProtocolVersion)
  | Repo (msg : RepoMessage)
deriving DecidableEq, Repr

/-- `NetworkError` as used by `src/network_connect.rs`: a single `Error`
case carrying the error text. -/
inductive NetworkError where
  | Error (msg : String)
deriving DecidableEq, Repr

/-- `ConnDirection` from `src/network_connect.rs`. -/
inductive ConnDirection where
  | Incoming
  | Outgoing
deriving DecidableEq, Repr

/-- The supported-version list the outgoing arm of `handshake` puts into
its `Join` message: `vec![ProtocolVersion::V1]`. -/
def supported_protocol_versions : List ProtocolVersion :=
  [ProtocolVersion.V1]

/-- Result of one `handshake` run: the returned value, the messages the
sink successfully accepted, and the unconsumed remainder of the incoming
stream. -/
structure HandshakeOutcome where
  result : Except NetworkError RepoId
  sent : List Message
  rest : List (Except String Message)
deriving DecidableEq, Repr

/-- Shallow embedding of `RepoHandle::handshake`
(`src/network_connect.rs`, lines 69–135).  `stream` is the list of items
the transport will yield; `sendResult` is the outcome of the single
`sink.send` the chosen arm performs (`none` = success). -/
def handshake (selfId : RepoId) (direction : ConnDirection)
    (stream : List (Except String Message)) (sendResult : Option String) :
    HandshakeOutcome :=
  match direction with
  | ConnDirection.Incoming =>
    match stream with
    | msg :: rest =>
      match msg with
      | Except.ok (Message.Join other_id _supported) =>
        let reply := Message.Peer selfId ProtocolVersion.V1
        match sendResult with
        | some e =>
          { result := Except.error (NetworkError.Error ("error sending: " ++ e))
            sent := [], rest := rest }
        | none =>
          { result := Except.ok other_id, sent := [reply], rest := rest }
      | Except.ok other =>
        let os := reprStr other
        { result := Except.error
            (NetworkError.Error ("unexpected message (expecting join): " ++ os))
          sent := [], rest := rest }
      | Except.error e =>
        { result := Except.error (NetworkError.Error ("error reciving: " ++ e))
          sent := [], rest := rest }
    | [] =>
      { result := Except.error (NetworkError.Error "unexpected end of receive stream")
        sent := [], rest := [] }
  | ConnDirection.Outgoing =>
    let join := Message.Join selfId supported_protocol_versions
    match sendResult with
    | some e =>
      { result := Except.error (NetworkError.Error ("send error: " ++ e))
        sent := [], rest := stream }
    | none =>
      match stream with
      | Except.ok (Message.Peer sender _selected) :: rest =>
        { result := Except.ok sender, sent := [join], rest := rest }
      | Except.ok other :: rest =>
        let os := reprStr other
        { result := Except.error
            (NetworkError.Error ("unexpected message (expecting peer): " ++ os))
          sent := [join], rest := rest }
      | Except.error e :: rest =>
        { result := Except.error (NetworkError.Error ("error sending: " ++ e))
          sent := [join], rest := rest }
      | [] =>
        { result := Except.error (NetworkError.Error "unexpected end of receive stream")
          sent := [join], rest := [] }

/-- The closure `connect_stream` maps over the post-handshake inbound
stream (`src/network_connect.rs`, lines 27–48): repo messages pass
through, everything else becomes a `NetworkError` item. -/
def map_incoming (msg : Except String Message) : Except NetworkError RepoMessage :=
  match msg with
  | Except.ok (Message.Repo repo_msg) => Except.ok repo_msg
  | Except.ok _m =>
    Except.error (NetworkError.Error "unexpected non-repo message")
  | Except.error e =>
    Except.error (NetworkError.Error ("error receiving repo message: " ++ e))

/-- The closure `connect_stream` passes to `with_flat_map` on the
post-handshake outbound sink (`src/network_connect.rs`, lines 50–62):
a `Sync` produces the single wire message `Message::Repo(msg)`, every
other `RepoMessage` produces nothing. -/
def flat_map_outgoing (msg : RepoMessage) : List (Except String Message) :=
  match msg with
  | RepoMessage.Sync _ _ _ _ => [Except.ok (Message.Repo msg)]
  | _ => []

/-- Result of one `connect_stream` run: the returned value, the argument
`new_remote_repo` was called with (`none` when it was not called), and
the messages sent during the handshake. -/
structure ConnectOutcome where
  result : Except NetworkError Unit
  installed : Option RepoId
  sent : List Message
deriving DecidableEq, Repr

/-- Shallow embedding of `RepoHandle::connect_stream`
(`src/network_connect.rs`, lines 12–67): run the handshake; on error
propagate it (the `?` operator) without installing anything; on success
install the mapped channel via `new_remote_repo` and return `Ok(())`.
The installed channel's per-item behaviour is `map_incoming` /
`flat_map_outgoing`. -/
def connect_stream (selfId : RepoId) (direction : ConnDirection)
    (stream : List (Except String Message)) (sendResult : Option String) :
    ConnectOutcome :=
  let h := handshake selfId direction stream sendResult
  match h.result with
  | Except.error e => { result := Except.error e, installed := none, sent := h.sent }
  | Except.ok other_id =>
    { result := Except.ok (), installed := some other_id, sent := h.sent }

/-!
The in-memory `Network` adapter of `tests/integration_tests.rs`.  Its
crate version's `NetworkMessage` and `NetworkEvent` each have the single
variant `Sync` (the matches in `start_send` and the router are
exhaustive with only a `Sync` arm), and its `NetworkError` is a unit
`Error` case.  The wakers and the notification channel are concurrency
plumbing; the outcome of `sender.blocking_send` in `start_send` is an
explicit boolean parameter.
-/

namespace TestNet

/-- `NetworkMessage` as used by `tests/integration_tests.rs`: only the
`Sync` variant exists (the match in `start_send` has no other arm). -/
inductive NetworkMessage where
  | Sync (from_repo_id : RepoId) (to_repo_id : RepoId)
      (document_id : DocumentId) (message : List Nat)
deriving DecidableEq, Repr

/-- `NetworkEvent` as used by `tests/integration_tests.rs`: only the
`Sync` variant is ever constructed or matched. -/
inductive NetworkEvent where
  | Sync (from_repo_id : RepoId) (to_repo_id : RepoId)
      (document_id : DocumentId) (message : List Nat)
deriving DecidableEq, Repr

/-- `NetworkError` as used by `tests/integration_tests.rs`: a unit
`Error` case. -/
inductive NetworkError where
  | Error
deriving DecidableEq, Repr

/-- `Poll`, the readiness result of the futures traits. -/
inductive Poll (α : Type) where
  | Ready (value : α)
  | Pending
deriving DecidableEq, Repr

/-- The queue state of a `Network<NetworkMessage>` value: the `buffer`
VecDeque fed by `receive_incoming` and drained by `poll_next`, and the
`outgoing` VecDeque fed by `start_send` and drained by `take_outgoing`.
The list head is the VecDeque front. -/
structure Network where
  buffer : List NetworkEvent
  outgoing : List NetworkMessage
deriving DecidableEq, Repr

/-- `Network::receive_incoming` (lines 39–44): `push_back` the event on
`buffer` (and wake the stream waker). -/
def receive_incoming (n : Network) (event : NetworkEvent) : Network :=
  { n with buffer := n.buffer ++ [event] }

/-- `Network::take_outgoing` (lines 46–52): `pop_front().unwrap()` on
`outgoing` (and wake the sink waker).  `none` models the panic of
`unwrap` on an empty queue. -/
def take_outgoing (n : Network) : Option (NetworkMessage × Network) :=
  match n.outgoing with
  | message :: rest => some (message, { n with outgoing := rest })
  | [] => none

/-- `Stream::poll_next` for `Network` (lines 55–68): register the waker,
`pop_front` the buffer; `Ready(Some(event))` when one is queued, else
`Pending`. -/
def poll_next (n : Network) : Poll (Option NetworkEvent) × Network :=
  match n.buffer with
  | event :: rest => (Poll.Ready (some event), { n with buffer := rest })
  | [] => (Poll.Pending, n)

/-- `Sink::poll_ready` for `Network` (lines 72–79): `Ready(Ok(()))`
exactly when `outgoing` is empty, else `Pending`. -/
def poll_ready (n : Network) : Poll (Except NetworkError Unit) :=
  if n.outgoing.isEmpty then Poll.Ready (Except.ok ()) else Poll.Pending

/-- `Sink::poll_flush` for `Network` (lines 99–106): `Ready(Ok(()))`
exactly when `outgoing` is empty, else `Pending`. -/
def poll_flush (n : Network) : Poll (Except NetworkError Unit) :=
  if n.outgoing.isEmpty then Poll.Ready (Except.ok ()) else Poll.Pending

/-- `Sink::start_send` for `Network` (lines 80–98): destructure the
`Sync` item, `push_back` it on `outgoing`, then notify the router over
the mpsc channel; when `blocking_send` fails (`senderOk = false`) return
`Err(NetworkError::Error)` — the item stays queued either way. -/
def start_send (n : Network) (item : NetworkMessage) (senderOk : Bool) :
    Network × Except NetworkError Unit :=
  let n2 := { n with outgoing := n.outgoing ++ [item] }
  if senderOk then (n2, Except.ok ()) else (n2, Except.error NetworkError.Error)

/-- Fold `start_send` (with a live notification channel) over a list of
messages. -/
def send_all (n : Network) (msgs : List NetworkMessage) : Network :=
  msgs.foldl (fun acc m => (start_send acc m true).1) n

/-- Fold `receive_incoming` over a list of events. -/
def receive_all (n : Network) (events : List NetworkEvent) : Network :=
  events.foldl receive_incoming n

/-- Call `take_outgoing` `k` times, collecting the messages it returns
in order (stopping early at the panic case). -/
def take_fuel : Nat → Network → List NetworkMessage × Network
  | 0, n => ([], n)
  | k + 1, n =>
    match take_outgoing n with
    | some (m, n2) =>
      let r := take_fuel k n2
      (m :: r.1, r.2)
    | none => ([], n)

/-- Call `poll_next` `k` times, collecting the events it yields in order
(stopping early at `Pending`). -/
def poll_fuel : Nat → Network → List NetworkEvent × Network
  | 0, n => ([], n)
  | k + 1, n =>
    match poll_next n with
    | (Poll.Ready (some event), n2) =>
      let r := poll_fuel k n2
      (event :: r.1, r.2)
    | _ => ([], n)

end TestNet

/-!
Theorems about the handshake and `connect_stream`.
-/

/-- C1: in the outgoing-direction handshake, after sending
`Join{sender=self, supported=[V1]}`, the single awaited reply is
accepted (returning the remote `RepoId`) only if it is a `Peer` message
whose selected protocol version is a member of the supported set sent in
the Join; every `Peer` reply whose selected version is outside that set
fails the handshake.  (Membership is automatic: `V1` is the only value
of `ProtocolVersion`.) -/
theorem handshake_outgoing_accepts_only_supported_peer
    (selfId : RepoId) (stream : List (Except String Message))
    (sendResult : Option String) (r : RepoId) :
    ((handshake selfId ConnDirection.Outgoing stream sendResult).result = Except.ok r →
      ∃ v rest, stream = Except.ok (Message.Peer r v) :: rest ∧
        v ∈ supported_protocol_versions) ∧
    (∀ v rest, stream = Except.ok (Message.Peer r v) :: rest →
      v ∉ supported_protocol_versions →
      (handshake selfId ConnDirection.Outgoing stream sendResult).result ≠ Except.ok r) ∧
    (sendResult = none →
      (handshake selfId ConnDirection.Outgoing stream sendResult).sent =
        [Message.Join selfId supported_protocol_versions]) := by
  have hmem : ∀ v : ProtocolVersion, v ∈ supported_protocol_versions := by
    intro v; cases v; simp [supported_protocol_versions]
  refine ⟨?_, ?_, ?_⟩
  · intro h
    cases sendResult with
    | some e => simp [handshake] at h
    | none =>
      cases stream with
      | nil => simp [handshake] at h
      | cons head rest =>
        cases head with
        | error e => simp [handshake] at h
        | ok m =>
          cases m with
          | Join s sup => simp [handshake] at h
          | Repo rm => simp [handshake] at h
          | Peer sender v =>
            simp [handshake] at h
            exact ⟨v, rest, by rw [h], hmem v⟩
  · intro v rest _ hv
    exact absurd (hmem v) hv
  · intro hs
    subst hs
    cases stream with
    | nil => rfl
    | cons head rest =>
      cases head with
      | error e => rfl
      | ok m => cases m <;> rfl

/-- C1 witness: a concrete outgoing handshake whose reply is
`Peer{sender=⟨7⟩, selected=V1}` succeeds only because the reply is a
supported `Peer`. -/
theorem handshake_outgoing_accepts_only_supported_peer_witness :
    ∃ (v : ProtocolVersion) (rest : List (Except String Message)),
      ([Except.ok (Message.Peer ⟨7⟩ ProtocolVersion.V1)] :
          List (Except String Message)) =
        Except.ok (Message.Peer ⟨7⟩ v) :: rest ∧
      v ∈ supported_protocol_versions :=
  (handshake_outgoing_accepts_only_supported_peer ⟨6⟩
      [Except.ok (Message.Peer ⟨7⟩ ProtocolVersion.V1)] none ⟨7⟩).1 (by decide)

/-- C2 counterexample: an incoming handshake that receives
`Join{sender=⟨1⟩, supported=[]}` — the intersection of the advertised
set with the responder's `[V1]` is empty — nevertheless succeeds,
returning the sender and replying `Peer{sender=self, selected=V1}`; the
code never fails with `Incompatible` and never inspects the advertised
set. -/
theorem handshake_incoming_ignores_versions_cx :
    List.inter ([] : List ProtocolVersion) supported_protocol_versions = [] ∧
    (handshake ⟨0⟩ ConnDirection.Incoming
        [Except.ok (Message.Join ⟨1⟩ [])] none).result = Except.ok ⟨1⟩ ∧
    (handshake ⟨0⟩ ConnDirection.Incoming
        [Except.ok (Message.Join ⟨1⟩ [])] none).sent =
      [Message.Peer ⟨0⟩ ProtocolVersion.V1] := by
  refine ⟨rfl, by decide, by decide⟩

/-- C2 (amended): for every received `Join`, whatever its advertised
supported-version set (even empty), the responder accepts it, replies
`Peer{sender=self, selected=V1}` and returns the sender; it never fails
with `Incompatible`. -/
theorem handshake_incoming_always_selects_v1
    (selfId sender : RepoId) (supported : List ProtocolVersion)
    (rest : List (Except String Message)) :
    handshake selfId ConnDirection.Incoming
        (Except.ok (Message.Join sender supported) :: rest) none =
      { result := Except.ok sender
        sent := [Message.Peer selfId ProtocolVersion.V1]
        rest := rest } := rfl

/-- C3: in both directions, a first message of the wrong variant, a
receive error, or stream end before any message makes `handshake` return
an error, never a `RepoId`; in particular an incoming side whose first
message is `Repo(Sync{..})` fails. -/
theorem handshake_rejects_unexpected
    (selfId : RepoId) (rest : List (Except String Message))
    (sendResult : Option String) :
    (∀ r, (handshake selfId ConnDirection.Incoming [] sendResult).result ≠
      Except.ok r) ∧
    (∀ e r, (handshake selfId ConnDirection.Incoming
      (Except.error e :: rest) sendResult).result ≠ Except.ok r) ∧
    (∀ m r, (∀ s sup, m ≠ Message.Join s sup) →
      (handshake selfId ConnDirection.Incoming
        (Except.ok m :: rest) sendResult).result ≠ Except.ok r) ∧
    (∀ r, (handshake selfId ConnDirection.Outgoing [] sendResult).result ≠
      Except.ok r) ∧
    (∀ e r, (handshake selfId ConnDirection.Outgoing
      (Except.error e :: rest) sendResult).result ≠ Except.ok r) ∧
    (∀ m r, (∀ s v, m ≠ Message.Peer s v) →
      (handshake selfId ConnDirection.Outgoing
        (Except.ok m :: rest) sendResult).result ≠ Except.ok r) := by
  refine ⟨?_, ?_, ?_, ?_, ?_, ?_⟩
  · intro r; cases sendResult <;> simp [handshake]
  · intro e r; cases sendResult <;> simp [handshake]
  · intro m r hm
    cases m with
    | Join s sup => exact absurd rfl (hm s sup)
    | Peer s v => cases sendResult <;> simp [handshake]
    | Repo rm => cases sendResult <;> simp [handshake]
  · intro r; cases sendResult <;> simp [handshake]
  · intro e r; cases sendResult <;> simp [handshake]
  · intro m r hm
    cases m with
    | Peer s v => exact absurd rfl (hm s v)
    | Join s sup => cases sendResult <;> simp [handshake]
    | Repo rm => cases sendResult <;> simp [handshake]

/-- C3 witness: an incoming handshake whose first message is
`Repo(Sync{..})` does not return the sender's id. -/
theorem handshake_rejects_unexpected_witness :
    (handshake ⟨0⟩ ConnDirection.Incoming
        [Except.ok (Message.Repo (RepoMessage.Sync ⟨1⟩ ⟨0⟩ ⟨⟨1⟩, 0⟩ []))]
        none).result ≠ Except.ok ⟨1⟩ :=
  (handshake_rejects_unexpected ⟨0⟩ [] none).2.2.1
    (Message.Repo (RepoMessage.Sync ⟨1⟩ ⟨0⟩ ⟨⟨1⟩, 0⟩ [])) ⟨1⟩
    (fun _ _ h => Message.noConfusion h)

/-- C4: `connect_stream` performs the handshake first and calls
`new_remote_repo` only on success: a handshake error is returned
unchanged with nothing installed; a handshake success installs the
remote id and returns `Ok(())`. -/
theorem connect_stream_installs_iff_handshake_ok
    (selfId : RepoId) (direction : ConnDirection)
    (stream : List (Except String Message)) (sendResult : Option String) :
    (∀ e, (handshake selfId direction stream sendResult).result = Except.error e →
      (connect_stream selfId direction stream sendResult).result = Except.error e ∧
      (connect_stream selfId direction stream sendResult).installed = none) ∧
    (∀ r, (handshake selfId direction stream sendResult).result = Except.ok r →
      (connect_stream selfId direction stream sendResult).result = Except.ok () ∧
      (connect_stream selfId direction stream sendResult).installed = some r) := by
  constructor
  · intro e h
    constructor <;> simp [connect_stream, h]
  · intro r h
    constructor <;> simp [connect_stream, h]

/-- C4 witness: a concrete successful outgoing handshake makes
`connect_stream` return `Ok(())` and install the remote repo `⟨3⟩`. -/
theorem connect_stream_installs_iff_handshake_ok_witness :
    (connect_stream ⟨2⟩ ConnDirection.Outgoing
        [Except.ok (Message.Peer ⟨3⟩ ProtocolVersion.V1)] none).result =
      Except.ok () ∧
    (connect_stream ⟨2⟩ ConnDirection.Outgoing
        [Except.ok (Message.Peer ⟨3⟩ ProtocolVersion.V1)] none).installed =
      some ⟨3⟩ :=
  (connect_stream_installs_iff_handshake_ok ⟨2⟩ ConnDirection.Outgoing
      [Except.ok (Message.Peer ⟨3⟩ ProtocolVersion.V1)] none).2 ⟨3⟩ (by decide)

/-- C5: the post-handshake inbound mapping is a filter to repo traffic:
`Ok(Repo(m))` maps to `Ok(m)`, a decoded `Join` or `Peer` maps to a
`NetworkError` item, a receive error maps to a `NetworkError` item, and
no item other than `Ok(Repo(m))` is ever passed through as a repo
message. -/
theorem map_incoming_filters_to_repo :
    (∀ m : RepoMessage, map_incoming (Except.ok (Message.Repo m)) = Except.ok m) ∧
    (∀ s sup, map_incoming (Except.ok (Message.Join s sup)) =
      Except.error (NetworkError.Error "unexpected non-repo message")) ∧
    (∀ s v, map_incoming (Except.ok (Message.Peer s v)) =
      Except.error (NetworkError.Error "unexpected non-repo message")) ∧
    (∀ e, map_incoming (Except.error e) =
      Except.error (NetworkError.Error ("error receiving repo message: " ++ e))) ∧
    (∀ msg m, map_incoming msg = Except.ok m → msg = Except.ok (Message.Repo m)) := by
  refine ⟨fun m => rfl, fun s sup => rfl, fun s v => rfl, fun e => rfl, ?_⟩
  intro msg m h
  cases msg with
  | error e => simp [map_incoming] at h
  | ok wire =>
    cases wire with
    | Join s sup => simp [map_incoming] at h
    | Peer s v => simp [map_incoming] at h
    | Repo rm => simp [map_incoming] at h; rw [h]

/-- C5 witness: the only preimage of `Ok(Leave)` under the inbound
mapping is `Ok(Repo(Leave))` — applied at that concrete item. -/
theorem map_incoming_filters_to_repo_witness :
    (Except.ok (Message.Repo RepoMessage.Leave) : Except String Message) =
      Except.ok (Message.Repo RepoMessage.Leave) :=
  map_incoming_filters_to_repo.2.2.2.2
    (Except.ok (Message.Repo RepoMessage.Leave)) RepoMessage.Leave rfl

/-- C6: the post-handshake outbound mapping sends exactly the `Sync`
messages: a `Sync` produces the single wire message `Repo` wrapping it
unchanged, and every other `RepoMessage` variant produces no wire
message at all. -/
theorem flat_map_outgoing_sends_exactly_sync :
    (∀ f t d p, flat_map_outgoing (RepoMessage.Sync f t d p) =
      [Except.ok (Message.Repo (RepoMessage.Sync f t d p))]) ∧
    (∀ m : RepoMessage, (∀ f t d p, m ≠ RepoMessage.Sync f t d p) →
      flat_map_outgoing m = []) := by
  constructor
  · intro f t d p; rfl
  · intro m hm
    cases m with
    | Sync f t d p => exact absurd rfl (hm f t d p)
    | Leave => rfl

/-- C6 witness: the non-`Sync` variant `Leave` produces no wire
message. -/
theorem flat_map_outgoing_sends_exactly_sync_witness :
    flat_map_outgoing RepoMessage.Leave = [] :=
  flat_map_outgoing_sends_exactly_sync.2 RepoMessage.Leave
    (fun _ _ _ _ h => RepoMessage.noConfusion h)

/-!
Theorems about the test `Network` adapter's queues.
-/

/-- Sending a list of messages appends them, in order, to the `outgoing`
queue, and leaves the inbound buffer untouched. -/
theorem TestNet.send_all_spec (msgs : List TestNet.NetworkMessage)
    (n : TestNet.Network) :
    (TestNet.send_all n msgs).outgoing = n.outgoing ++ msgs ∧
    (TestNet.send_all n msgs).buffer = n.buffer := by
  induction msgs generalizing n with
  | nil => simp [TestNet.send_all]
  | cons m ms ih =>
    have step : TestNet.send_all n (m :: ms) =
        TestNet.send_all { n with outgoing := n.outgoing ++ [m] } ms := rfl
    rw [step]
    rcases ih { n with outgoing := n.outgoing ++ [m] } with ⟨h1, h2⟩
    constructor
    · rw [h1]; simp
    · exact h2

/-- Receiving a list of events appends them, in order, to the inbound
buffer, and leaves the `outgoing` queue untouched. -/
theorem TestNet.receive_all_spec (events : List TestNet.NetworkEvent)
    (n : TestNet.Network) :
    (TestNet.receive_all n events).buffer = n.buffer ++ events ∧
    (TestNet.receive_all n events).outgoing = n.outgoing := by
  induction events generalizing n with
  | nil => simp [TestNet.receive_all]
  | cons ev evs ih =>
    have step : TestNet.receive_all n (ev :: evs) =
        TestNet.receive_all { n with buffer := n.buffer ++ [ev] } evs := rfl
    rw [step]
    rcases ih { n with buffer := n.buffer ++ [ev] } with ⟨h1, h2⟩
    constructor
    · rw [h1]; simp
    · exact h2

/-- Draining as many messages as the `outgoing` queue holds returns
exactly that queue, front first. -/
theorem TestNet.take_fuel_drains (msgs : List TestNet.NetworkMessage)
    (n : TestNet.Network) (h : n.outgoing = msgs) :
    (TestNet.take_fuel msgs.length n).1 = msgs := by
  induction msgs generalizing n with
  | nil => simp [TestNet.take_fuel]
  | cons m ms ih =>
    obtain ⟨buf, outgoing⟩ := n
    simp only at h
    subst h
    simp [TestNet.take_fuel, TestNet.take_outgoing]
    exact ih { buffer := buf, outgoing := ms } rfl

/-- Polling as many times as the buffer holds events yields exactly the
buffer, front first. -/
theorem TestNet.poll_fuel_drains (events : List TestNet.NetworkEvent)
    (n : TestNet.Network) (h : n.buffer = events) :
    (TestNet.poll_fuel events.length n).1 = events := by
  induction events generalizing n with
  | nil => simp [TestNet.poll_fuel]
  | cons ev evs ih =>
    obtain ⟨buffer, outgoing⟩ := n
    simp only at h
    subst h
    simp [TestNet.poll_fuel, TestNet.poll_next]
    exact ih { buffer := evs, outgoing := outgoing } rfl

/-- C7: the per-peer queues are FIFO in both directions: starting from
empty queues, any sequence of messages passed to `start_send` is
returned by repeated `take_outgoing` in exactly the same order, and any
sequence of events passed to `receive_incoming` is yielded by repeated
`poll_next` in exactly the same order. -/
theorem network_queues_fifo (n : TestNet.Network)
    (msgs : List TestNet.NetworkMessage) (events : List TestNet.NetworkEvent)
    (hout : n.outgoing = []) (hbuf : n.buffer = []) :
    (TestNet.take_fuel msgs.length (TestNet.send_all n msgs)).1 = msgs ∧
    (TestNet.poll_fuel events.length (TestNet.receive_all n events)).1 = events := by
  constructor
  · apply TestNet.take_fuel_drains
    rw [(TestNet.send_all_spec msgs n).1, hout]
    rfl
  · apply TestNet.poll_fuel_drains
    rw [(TestNet.receive_all_spec events n).1, hbuf]
    rfl

/-- C7 witness: two concrete sync messages sent through `start_send` come
back from `take_outgoing` in order, and one concrete event fed to
`receive_incoming` is yielded by `poll_next`. -/
theorem network_queues_fifo_witness :
    (TestNet.take_fuel
      ([TestNet.NetworkMessage.Sync ⟨0⟩ ⟨1⟩ ⟨⟨0⟩, 0⟩ [1],
        TestNet.NetworkMessage.Sync ⟨0⟩ ⟨1⟩ ⟨⟨0⟩, 1⟩ [2]] :
          List TestNet.NetworkMessage).length
      (TestNet.send_all ⟨[], []⟩
        [TestNet.NetworkMessage.Sync ⟨0⟩ ⟨1⟩ ⟨⟨0⟩, 0⟩ [1],
         TestNet.NetworkMessage.Sync ⟨0⟩ ⟨1⟩ ⟨⟨0⟩, 1⟩ [2]])).1 =
      [TestNet.NetworkMessage.Sync ⟨0⟩ ⟨1⟩ ⟨⟨0⟩, 0⟩ [1],
       TestNet.NetworkMessage.Sync ⟨0⟩ ⟨1⟩ ⟨⟨0⟩, 1⟩ [2]] ∧
    (TestNet.poll_fuel
      ([TestNet.NetworkEvent.Sync ⟨1⟩ ⟨0⟩ ⟨⟨1⟩, 0⟩ [3]] :
          List TestNet.NetworkEvent).length
      (TestNet.receive_all ⟨[], []⟩
        [TestNet.NetworkEvent.Sync ⟨1⟩ ⟨0⟩ ⟨⟨1⟩, 0⟩ [3]])).1 =
      [TestNet.NetworkEvent.Sync ⟨1⟩ ⟨0⟩ ⟨⟨1⟩, 0⟩ [3]] :=
  network_queues_fifo ⟨[], []⟩
    [TestNet.NetworkMessage.Sync ⟨0⟩ ⟨1⟩ ⟨⟨0⟩, 0⟩ [1],
     TestNet.NetworkMessage.Sync ⟨0⟩ ⟨1⟩ ⟨⟨0⟩, 1⟩ [2]]
    [TestNet.NetworkEvent.Sync ⟨1⟩ ⟨0⟩ ⟨⟨1⟩, 0⟩ [3]] rfl rfl

/-- C8: the outbound queue applies backpressure and never drops a
message: `poll_ready` and `poll_flush` are `Ready` exactly when the
`outgoing` queue is empty and `Pending` otherwise, and `start_send`
always appends the given message to the queue, whatever the notification
channel's outcome. -/
theorem network_backpressure (n : TestNet.Network)
    (item : TestNet.NetworkMessage) (senderOk : Bool) :
    (TestNet.poll_ready n = TestNet.Poll.Ready (Except.ok ()) ↔ n.outgoing = []) ∧
    (TestNet.poll_ready n = TestNet.Poll.Pending ↔ n.outgoing ≠ []) ∧
    TestNet.poll_flush n = TestNet.poll_ready n ∧
    (TestNet.start_send n item senderOk).1.outgoing = n.outgoing ++ [item] := by
  refine ⟨?_, ?_, rfl, ?_⟩
  · cases hout : n.outgoing with
    | nil => simp [TestNet.poll_ready, hout]
    | cons m ms => simp [TestNet.poll_ready, hout]
  · cases hout : n.outgoing with
    | nil => simp [TestNet.poll_ready, hout]
    | cons m ms => simp [TestNet.poll_ready, hout]
  · cases senderOk <;> rfl

/-- C8 witness: with an empty queue `poll_ready` is `Ready(Ok(()))`, and
a concrete `start_send` appends its message. -/
theorem network_backpressure_witness :
    TestNet.poll_ready ⟨[], []⟩ = TestNet.Poll.Ready (Except.ok ()) ∧
    (TestNet.start_send ⟨[], []⟩
        (TestNet.NetworkMessage.Sync ⟨4⟩ ⟨5⟩ ⟨⟨4⟩, 0⟩ []) true).1.outgoing =
      [] ++ [TestNet.NetworkMessage.Sync ⟨4⟩ ⟨5⟩ ⟨⟨4⟩, 0⟩ []] :=
  ⟨(network_backpressure ⟨[], []⟩
      (TestNet.NetworkMessage.Sync ⟨4⟩ ⟨5⟩ ⟨⟨4⟩, 0⟩ []) true).1.mpr rfl,
   (network_backpressure ⟨[], []⟩
      (TestNet.NetworkMessage.Sync ⟨4⟩ ⟨5⟩ ⟨⟨4⟩, 0⟩ []) true).2.2.2⟩

/-- C9: `take_outgoing` under the precondition that the `outgoing` queue
is non-empty returns the front message and the state with it removed —
the `unwrap` panic branch is unreachable; nothing is claimed for an
empty queue. -/
theorem take_outgoing_nonempty_total (n : TestNet.Network)
    (m : TestNet.NetworkMessage) (rest : List TestNet.NetworkMessage)
    (h : n.outgoing = m :: rest) :
    TestNet.take_outgoing n = some (m, { n with outgoing := rest }) := by
  obtain ⟨buf, outgoing⟩ := n
  simp only at h
  subst h
  rfl

/-- C9 witness: a queue holding one concrete message yields it without
reaching the panic case. -/
theorem take_outgoing_nonempty_total_witness :
    TestNet.take_outgoing
        ⟨[], [TestNet.NetworkMessage.Sync ⟨8⟩ ⟨9⟩ ⟨⟨8⟩, 0⟩ [7]]⟩ =
      some (TestNet.NetworkMessage.Sync ⟨8⟩ ⟨9⟩ ⟨⟨8⟩, 0⟩ [7],
        { buffer := [], outgoing := [] }) :=
  take_outgoing_nonempty_total
    ⟨[], [TestNet.NetworkMessage.Sync ⟨8⟩ ⟨9⟩ ⟨⟨8⟩, 0⟩ [7]]⟩
    (TestNet.NetworkMessage.Sync ⟨8⟩ ⟨9⟩ ⟨⟨8⟩, 0⟩ [7]) [] rfl

/-- C10: `start_send` is not atomic on error: when the notification
channel's `blocking_send` fails it returns `Err(NetworkError::Error)`,
yet the message has already been pushed onto the `outgoing` queue. -/
theorem start_send_not_atomic (n : TestNet.Network)
    (item : TestNet.NetworkMessage) :
    (TestNet.start_send n item false).2 =
      Except.error TestNet.NetworkError.Error ∧
    (TestNet.start_send n item false).1.outgoing = n.outgoing ++ [item] :=
  ⟨rfl, rfl⟩
